import Mathlib

/-!
# picotorokko: binding layer and debounced button

A shallow embedding of

* `playground/m5app/mrbgems/mrbgem-picoruby-button/src/button.c`
  (the polled, debounced button on GPIO39), and
* `playground/m5app/mrbgems/mrbgem-picoruby-m5unified/src/m5unified.c` together with
  `ports/esp32/m5unified_wrapper.cpp` (the M5Unified bindings).

Conventions of the embedding.

* A C `int` is an `Int`; a `uint32_t` is a `Nat` and every `uint32_t` operation of the
  source is reduced modulo `2^32` explicitly (`u32_mul`, `u32_sub`).
* The three file-level statics of `button.c` are the fields of `ButtonState`; a bound
  method takes the state and returns the new state.
* What the collaborators answer during one call (GPIO level, FreeRTOS tick count,
  M5Unified button queries) is an input of the call, collected in `Env`.
* `SET_RETURN(x)` stores `x` in register `v[0]`; the embedding returns `x` beside the
  new state.
* Every bound method has the C signature `(mrbc_vm *vm, mrbc_value *v, int argc)`; the
  embedding keeps `v` (the register window, indexed from the receiver `v[0]`) and `argc`.
* `mrbc_value`, `mrbc_nil_value`, `mrbc_bool_value` and `mrbc_string_cstr` belong to the
  mruby/c runtime, and `gpio_get_level`, `xTaskGetTickCount` and `portTICK_PERIOD_MS` to
  ESP-IDF and FreeRTOS; they are modelled by their documented meaning.
-/

namespace Picotorokko

/-! ## mruby/c values -/

/-- Type tags of a VM value (the tags of the data model: Nil, Boolean as the two tags
`FALSE`/`TRUE` of mruby/c, Integer, String). -/
inductive mrbc_vtype where
  | MRBC_TT_NIL
  | MRBC_TT_FALSE
  | MRBC_TT_TRUE
  | MRBC_TT_INTEGER
  | MRBC_TT_STRING
  deriving DecidableEq, Repr

/-- A tagged VM value. A string carries the bytes of the buffer owned by the VM (Ruby
strings may hold any byte, NUL included). -/
inductive mrbc_value where
  | nil
  | bool (b : Bool)
  | integer (i : Int)
  | string (bytes : List Nat)
  deriving DecidableEq, Repr

/-- The field `tt` of an `mrbc_value`. -/
def mrbc_value.tt : mrbc_value → mrbc_vtype
  | .nil => .MRBC_TT_NIL
  | .bool false => .MRBC_TT_FALSE
  | .bool true => .MRBC_TT_TRUE
  | .integer _ => .MRBC_TT_INTEGER
  | .string _ => .MRBC_TT_STRING

/-- The nil value, `mrbc_nil_value()`. -/
def mrbc_nil_value : mrbc_value := .nil

/-- The macro `mrbc_bool_value(n)`: the C integer `n` as a VM boolean, true iff `n` is
non-zero. -/
def mrbc_bool_value (n : Int) : mrbc_value := .bool (decide (n ≠ 0))

/-- The text that a `const char*` pointing at a byte buffer denotes for C code: the bytes
before the first NUL byte (mruby/c keeps a terminating NUL after the bytes of a string). -/
def c_string (bytes : List Nat) : List Nat := bytes.takeWhile (fun b => decide (b ≠ 0))

/-- The accessor `mrbc_string_cstr(&x)`: the `const char*` to the buffer of a string
value, which the native side borrows for the duration of the call and reads as a C
string; empty for a value that is not a string. -/
def mrbc_string_cstr : mrbc_value → List Nat
  | .string bytes => c_string bytes
  | _ => []

/-- The register window `v` handed to a bound method: `v 0` is the receiver,
`v 1 .. v argc` are the arguments. -/
abbrev Regs := Nat → mrbc_value

/-- The value of a C comparison `a == b` as an `int`. -/
def c_eq (a b : Int) : Int := if a = b then 1 else 0

/-! ## `uint32_t` arithmetic -/

/-- The modulus of `uint32_t`, `2^32`. -/
def UINT32_MOD : Nat := 4294967296

/-- Multiplication in `uint32_t`. -/
def u32_mul (a b : Nat) : Nat := (a * b) % UINT32_MOD

/-- Subtraction in `uint32_t`: `a - b` wraps modulo `2^32`. -/
def u32_sub (a b : Nat) : Nat := (a % UINT32_MOD + (UINT32_MOD - b % UINT32_MOD)) % UINT32_MOD

/-! ## What the collaborators answer during one call -/

/-- Answers of the external collaborators during one bound-method call. -/
structure Env where
  /-- Result of `gpio_get_level(BUTTON_PIN)`. -/
  gpio_level : Int
  /-- Result of `xTaskGetTickCount()` (a `uint32_t` tick counter). -/
  xTaskGetTickCount : Nat
  /-- The FreeRTOS configuration constant `portTICK_PERIOD_MS`. -/
  portTICK_PERIOD_MS : Nat
  /-- Results of `M5.BtnA.wasPressed()`, `M5.BtnA.isPressed()`, and so on. -/
  btnA_wasPressed : Bool
  btnA_isPressed : Bool
  btnB_wasPressed : Bool
  btnB_isPressed : Bool
  btnC_wasPressed : Bool
  btnC_isPressed : Bool

/-- The clock value `now` of `c_button_update`:
`uint32_t now = xTaskGetTickCount() * portTICK_PERIOD_MS;`. -/
def Env.now (e : Env) : Nat := u32_mul e.xTaskGetTickCount e.portTICK_PERIOD_MS

/-! ## `button.c` -/

/-- The debounce window, `#define DEBOUNCE_MS 50`. -/
def DEBOUNCE_MS : Nat := 50

/-- The file-level statics of `button.c`. -/
structure ButtonState where
  /-- The static `int last_state`: the level stored by the last accepted tick. -/
  last_state : Int
  /-- The static `int was_pressed_flag`: the pending-event latch. -/
  was_pressed_flag : Int
  /-- The static `uint32_t last_change_time`. -/
  last_change_time : Nat
  deriving DecidableEq, Repr

/-- The static initialisers: `last_state = 1`, `was_pressed_flag = 0`,
`last_change_time = 0`. -/
def static_init : ButtonState :=
  { last_state := 1, was_pressed_flag := 0, last_change_time := 0 }

/-- Button.init, `c_button_init`: configures the pin (no effect on the statics) and stores
the level read from the pin in `last_state`; returns nil. The clock is not read and the
other two statics are not written. -/
def c_button_init (e : Env) (s : ButtonState) (_v : Regs) (_argc : Int) :
    ButtonState × mrbc_value :=
  ({ s with last_state := e.gpio_level }, mrbc_nil_value)

/-- Button.update, `c_button_update`: one polling tick, falling-edge detection behind
the debounce guard. -/
def c_button_update (e : Env) (s : ButtonState) (_v : Regs) (_argc : Int) :
    ButtonState × mrbc_value :=
  let now := e.now
  let current := e.gpio_level
  let s1 :=
    if u32_sub now s.last_change_time > DEBOUNCE_MS then
      let s2 :=
        if s.last_state = 1 ∧ current = 0 then
          { s with was_pressed_flag := 1, last_change_time := now }
        else s
      { s2 with last_state := current }
    else s
  (s1, mrbc_nil_value)

/-- Button.was_pressed?, `c_button_was_pressed`: returns the latch and clears it. -/
def c_button_was_pressed (_e : Env) (s : ButtonState) (_v : Regs) (_argc : Int) :
    ButtonState × mrbc_value :=
  let result := s.was_pressed_flag
  ({ s with was_pressed_flag := 0 }, mrbc_bool_value result)

/-- Button.is_pressed?, `c_button_is_pressed`: reads the pin and reports whether it is
low. -/
def c_button_is_pressed (e : Env) (s : ButtonState) (_v : Regs) (_argc : Int) :
    ButtonState × mrbc_value :=
  let current := e.gpio_level
  (s, mrbc_bool_value (c_eq current 0))

/-! ## `m5unified_wrapper.cpp` and `m5unified.c` -/

/-- A call into the M5Unified library, as made by the C++ wrapper. -/
inductive M5Call where
  | begin
  | update
  | btnA_wasPressed
  | btnA_isPressed
  | btnB_wasPressed
  | btnB_isPressed
  | btnC_wasPressed
  | btnC_isPressed
  | display_print (text : List Nat)
  | display_println (text : List Nat)
  | display_clear
  deriving DecidableEq, Repr

/-- The library calls made so far, oldest first; its length is the native call counter. -/
abbrev M5Log := List M5Call

/-- Wrapper `m5unified_begin`: `M5.begin(M5.config())`. -/
def m5unified_begin (log : M5Log) : M5Log := log ++ [.begin]

/-- Wrapper `m5unified_update`: `M5.update()`. -/
def m5unified_update (log : M5Log) : M5Log := log ++ [.update]

/-- Wrapper `m5unified_btnA_wasPressed`: `M5.BtnA.wasPressed() ? 1 : 0`. -/
def m5unified_btnA_wasPressed (e : Env) (log : M5Log) : M5Log × Int :=
  (log ++ [.btnA_wasPressed], if e.btnA_wasPressed then 1 else 0)

/-- Wrapper `m5unified_btnA_isPressed`: `M5.BtnA.isPressed() ? 1 : 0`. -/
def m5unified_btnA_isPressed (e : Env) (log : M5Log) : M5Log × Int :=
  (log ++ [.btnA_isPressed], if e.btnA_isPressed then 1 else 0)

/-- Wrapper `m5unified_btnB_wasPressed`: `M5.BtnB.wasPressed() ? 1 : 0`. -/
def m5unified_btnB_wasPressed (e : Env) (log : M5Log) : M5Log × Int :=
  (log ++ [.btnB_wasPressed], if e.btnB_wasPressed then 1 else 0)

/-- Wrapper `m5unified_btnB_isPressed`: `M5.BtnB.isPressed() ? 1 : 0`. -/
def m5unified_btnB_isPressed (e : Env) (log : M5Log) : M5Log × Int :=
  (log ++ [.btnB_isPressed], if e.btnB_isPressed then 1 else 0)

/-- Wrapper `m5unified_btnC_wasPressed`: `M5.BtnC.wasPressed() ? 1 : 0`. -/
def m5unified_btnC_wasPressed (e : Env) (log : M5Log) : M5Log × Int :=
  (log ++ [.btnC_wasPressed], if e.btnC_wasPressed then 1 else 0)

/-- Wrapper `m5unified_btnC_isPressed`: `M5.BtnC.isPressed() ? 1 : 0`. -/
def m5unified_btnC_isPressed (e : Env) (log : M5Log) : M5Log × Int :=
  (log ++ [.btnC_isPressed], if e.btnC_isPressed then 1 else 0)

/-- Wrapper `m5unified_display_print`: `M5.Display.print(text)`. -/
def m5unified_display_print (text : List Nat) (log : M5Log) : M5Log :=
  log ++ [.display_print text]

/-- Wrapper `m5unified_display_println`: `M5.Display.println(text)`. -/
def m5unified_display_println (text : List Nat) (log : M5Log) : M5Log :=
  log ++ [.display_println text]

/-- Wrapper `m5unified_display_clear`: `M5.Display.clear()`. -/
def m5unified_display_clear (log : M5Log) : M5Log := log ++ [.display_clear]

/-- Bound method `M5.begin()`. -/
def mrbc_m5_begin (_e : Env) (log : M5Log) (_v : Regs) (_argc : Int) : M5Log × mrbc_value :=
  (m5unified_begin log, mrbc_nil_value)

/-- Bound method `M5.update()`. -/
def mrbc_m5_update (_e : Env) (log : M5Log) (_v : Regs) (_argc : Int) : M5Log × mrbc_value :=
  (m5unified_update log, mrbc_nil_value)

/-- Bound method `M5.BtnA.wasPressed?`. -/
def mrbc_m5_btnA_wasPressed (e : Env) (log : M5Log) (_v : Regs) (_argc : Int) :
    M5Log × mrbc_value :=
  let r := m5unified_btnA_wasPressed e log
  (r.1, mrbc_bool_value r.2)

/-- Bound method `M5.BtnA.isPressed?`. -/
def mrbc_m5_btnA_isPressed (e : Env) (log : M5Log) (_v : Regs) (_argc : Int) :
    M5Log × mrbc_value :=
  let r := m5unified_btnA_isPressed e log
  (r.1, mrbc_bool_value r.2)

/-- Bound method `M5.BtnB.wasPressed?`. -/
def mrbc_m5_btnB_wasPressed (e : Env) (log : M5Log) (_v : Regs) (_argc : Int) :
    M5Log × mrbc_value :=
  let r := m5unified_btnB_wasPressed e log
  (r.1, mrbc_bool_value r.2)

/-- Bound method `M5.BtnB.isPressed?`. -/
def mrbc_m5_btnB_isPressed (e : Env) (log : M5Log) (_v : Regs) (_argc : Int) :
    M5Log × mrbc_value :=
  let r := m5unified_btnB_isPressed e log
  (r.1, mrbc_bool_value r.2)

/-- Bound method `M5.BtnC.wasPressed?`. -/
def mrbc_m5_btnC_wasPressed (e : Env) (log : M5Log) (_v : Regs) (_argc : Int) :
    M5Log × mrbc_value :=
  let r := m5unified_btnC_wasPressed e log
  (r.1, mrbc_bool_value r.2)

/-- Bound method `M5.BtnC.isPressed?`. -/
def mrbc_m5_btnC_isPressed (e : Env) (log : M5Log) (_v : Regs) (_argc : Int) :
    M5Log × mrbc_value :=
  let r := m5unified_btnC_isPressed e log
  (r.1, mrbc_bool_value r.2)

/-- Bound method `M5.Display.print(text)`: the wrapper is called only behind the guard
`argc >= 1 && v[1].tt == MRBC_TT_STRING`; the result is nil either way. -/
def mrbc_m5_display_print (_e : Env) (log : M5Log) (v : Regs) (argc : Int) :
    M5Log × mrbc_value :=
  let log1 :=
    if argc ≥ 1 ∧ (v 1).tt = .MRBC_TT_STRING then
      let text := mrbc_string_cstr (v 1)
      m5unified_display_print text log
    else log
  (log1, mrbc_nil_value)

/-- Bound method `M5.Display.println(text)`: same guard as `print`. -/
def mrbc_m5_display_println (_e : Env) (log : M5Log) (v : Regs) (argc : Int) :
    M5Log × mrbc_value :=
  let log1 :=
    if argc ≥ 1 ∧ (v 1).tt = .MRBC_TT_STRING then
      let text := mrbc_string_cstr (v 1)
      m5unified_display_println text log
    else log
  (log1, mrbc_nil_value)

/-- Bound method `M5.Display.clear()`. -/
def mrbc_m5_display_clear (_e : Env) (log : M5Log) (_v : Regs) (_argc : Int) :
    M5Log × mrbc_value :=
  (m5unified_display_clear log, mrbc_nil_value)

/-! ## The method tables of the two `gem_init` functions -/

/-- Everything a bound method can change: the statics of `button.c` and the log of
M5Unified library calls. -/
structure World where
  button : ButtonState
  m5 : M5Log
  deriving DecidableEq, Repr

/-- The methods registered by `mrbc_mrbgem_picoruby_button_gem_init` (class `Button`) and
by `mrbc_mrbgem_picoruby_m5unified_gem_init` (classes `M5`, `BtnA`, `BtnB`, `BtnC`,
`Display`). -/
inductive Method where
  | Button_init
  | Button_update
  | Button_was_pressed
  | Button_is_pressed
  | M5_begin
  | M5_update
  | BtnA_wasPressed
  | BtnA_isPressed
  | BtnB_wasPressed
  | BtnB_isPressed
  | BtnC_wasPressed
  | BtnC_isPressed
  | Display_print
  | Display_println
  | Display_clear
  deriving DecidableEq, Repr

/-- Runs a method of `button.c` on the world. -/
def on_button (f : Env → ButtonState → Regs → Int → ButtonState × mrbc_value)
    (e : Env) (w : World) (v : Regs) (argc : Int) : World × mrbc_value :=
  let r := f e w.button v argc
  ({ w with button := r.1 }, r.2)

/-- Runs a method of `m5unified.c` on the world. -/
def on_m5 (f : Env → M5Log → Regs → Int → M5Log × mrbc_value)
    (e : Env) (w : World) (v : Regs) (argc : Int) : World × mrbc_value :=
  let r := f e w.m5 v argc
  ({ w with m5 := r.1 }, r.2)

/-- The C function that `mrbc_define_method` registers for each method name; the VM
calls it with the register window and the argument count of the call site, whatever they
are. -/
def Method.call : Method → Env → World → Regs → Int → World × mrbc_value
  | .Button_init => on_button c_button_init
  | .Button_update => on_button c_button_update
  | .Button_was_pressed => on_button c_button_was_pressed
  | .Button_is_pressed => on_button c_button_is_pressed
  | .M5_begin => on_m5 mrbc_m5_begin
  | .M5_update => on_m5 mrbc_m5_update
  | .BtnA_wasPressed => on_m5 mrbc_m5_btnA_wasPressed
  | .BtnA_isPressed => on_m5 mrbc_m5_btnA_isPressed
  | .BtnB_wasPressed => on_m5 mrbc_m5_btnB_wasPressed
  | .BtnB_isPressed => on_m5 mrbc_m5_btnB_isPressed
  | .BtnC_wasPressed => on_m5 mrbc_m5_btnC_wasPressed
  | .BtnC_isPressed => on_m5 mrbc_m5_btnC_isPressed
  | .Display_print => on_m5 mrbc_m5_display_print
  | .Display_println => on_m5 mrbc_m5_display_println
  | .Display_clear => on_m5 mrbc_m5_display_clear

/-- Whether the method is documented without parameters (`M5.begin()`, `Button.update`,
...); only `Display.print(text)` and `Display.println(text)` take one. -/
def Method.zero_arg : Method → Bool
  | .Display_print => false
  | .Display_println => false
  | _ => true

/-- Whether the method is bound in `m5unified.c` (and so reaches a wrapper function). -/
def Method.is_m5 : Method → Bool
  | .Button_init => false
  | .Button_update => false
  | .Button_was_pressed => false
  | .Button_is_pressed => false
  | _ => true

/-! ## Call sequences and sample inputs -/

/-- Successive calls of one bound method of `button.c`, one entry of `calls` per call;
returns the final state and the list of returned values. -/
def run_calls (f : Env → ButtonState → Regs → Int → ButtonState × mrbc_value) :
    List (Env × Regs × Int) → ButtonState → ButtonState × List mrbc_value
  | [], s => (s, [])
  | c :: cs, s =>
    let r := f c.1 s c.2.1 c.2.2
    let rest := run_calls f cs r.1
    (rest.1, r.2 :: rest.2)

/-- A sample environment: the pin reads `level`, the tick counter reads `tick` with a
tick period of 1 ms, and no M5 button is pressed. -/
def env_at (level : Int) (tick : Nat) : Env :=
  { gpio_level := level, xTaskGetTickCount := tick, portTICK_PERIOD_MS := 1,
    btnA_wasPressed := false, btnA_isPressed := false, btnB_wasPressed := false,
    btnB_isPressed := false, btnC_wasPressed := false, btnC_isPressed := false }

/-- A sample environment in which `M5.BtnA` reports a press and is held down; the pin
reads high. -/
def env_pressed_A (tick : Nat) : Env :=
  { gpio_level := 1, xTaskGetTickCount := tick, portTICK_PERIOD_MS := 1,
    btnA_wasPressed := true, btnA_isPressed := true, btnB_wasPressed := false,
    btnB_isPressed := false, btnC_wasPressed := false, btnC_isPressed := false }

/-- A register window holding only nil values (a call without arguments). -/
def no_args : Regs := fun _ => mrbc_value.nil

/-- A register window whose first argument `v[1]` is `x`. -/
def one_arg (x : mrbc_value) : Regs := fun i => if i = 1 then x else mrbc_value.nil

/-! ## Arithmetic of the elapsed time -/

/-- Subtraction in `uint32_t` is the integer difference reduced modulo `2^32`. -/
theorem u32_sub_eq_emod (a b : Nat) :
    ((u32_sub a b : Nat) : Int) = ((a : Int) - (b : Int)) % 4294967296 := by
  unfold u32_sub UINT32_MOD
  omega

/-- Adding a delta below `2^32` to a timestamp and subtracting the timestamp again, all
in `uint32_t`, gives the delta back. -/
theorem u32_sub_add_cancel (L d : Nat) (hd : d < UINT32_MOD) :
    u32_sub ((L + d) % UINT32_MOD) L = d := by
  unfold u32_sub UINT32_MOD at *
  omega

/-! ## The three branches of `c_button_update` -/

/-- Inside the debounce window the tick changes nothing. -/
theorem update_in_window (e : Env) (s : ButtonState) (v : Regs) (argc : Int)
    (h : u32_sub e.now s.last_change_time ≤ DEBOUNCE_MS) :
    c_button_update e s v argc = (s, mrbc_nil_value) := by
  have h1 : ¬ (u32_sub e.now s.last_change_time > DEBOUNCE_MS) := by omega
  simp [c_button_update, h1]

/-- Outside the window a falling edge sets the latch, restarts the window and stores the
level. -/
theorem update_falling (e : Env) (s : ButtonState) (v : Regs) (argc : Int)
    (h : u32_sub e.now s.last_change_time > DEBOUNCE_MS)
    (hl : s.last_state = 1) (hc : e.gpio_level = 0) :
    c_button_update e s v argc =
      ({ last_state := 0, was_pressed_flag := 1, last_change_time := e.now },
        mrbc_nil_value) := by
  simp [c_button_update, h, hl, hc]

/-- Outside the window every other tick only stores the level. -/
theorem update_other (e : Env) (s : ButtonState) (v : Regs) (argc : Int)
    (h : u32_sub e.now s.last_change_time > DEBOUNCE_MS)
    (hn : ¬ (s.last_state = 1 ∧ e.gpio_level = 0)) :
    c_button_update e s v argc = ({ s with last_state := e.gpio_level }, mrbc_nil_value) := by
  simp [c_button_update, h, hn]

/-- A run of ticks that all lie inside the debounce window of the starting state leaves
the state as it was. -/
theorem run_update_in_window (s : ButtonState) (calls : List (Env × Regs × Int))
    (h : ∀ c ∈ calls, u32_sub c.1.now s.last_change_time ≤ DEBOUNCE_MS) :
    (run_calls c_button_update calls s).1 = s := by
  induction calls with
  | nil => rfl
  | cons c cs ih =>
    have hc := h c (List.mem_cons_self c cs)
    have hcs : ∀ c' ∈ cs, u32_sub c'.1.now s.last_change_time ≤ DEBOUNCE_MS :=
      fun c' hc' => h c' (List.mem_cons_of_mem c hc')
    simp only [run_calls, update_in_window c.1 s c.2.1 c.2.2 hc]
    exact ih hcs

/-! ## The claims about `button.c` -/

/-- C1 (consuming query). In every button state `Button.was_pressed?` returns true exactly
when the latch is set (non-zero), and leaves the latch cleared with the last level and
the timestamp unchanged. Hence, with no update in between, a second call returns false
in every state, and from a state with the latch set the two calls return true then
false. -/
theorem C1_was_pressed_consumes (e e2 : Env) (s : ButtonState) (v v2 : Regs)
    (argc argc2 : Int) :
    (c_button_was_pressed e s v argc).2 = mrbc_value.bool (decide (s.was_pressed_flag ≠ 0)) ∧
    (c_button_was_pressed e s v argc).1 =
      { last_state := s.last_state, was_pressed_flag := 0,
        last_change_time := s.last_change_time } ∧
    (c_button_was_pressed e2 (c_button_was_pressed e s v argc).1 v2 argc2).2 =
      mrbc_value.bool false ∧
    (s.was_pressed_flag ≠ 0 →
      (c_button_was_pressed e s v argc).2 = mrbc_value.bool true ∧
      (c_button_was_pressed e2 (c_button_was_pressed e s v argc).1 v2 argc2).2 =
        mrbc_value.bool false) := by
  refine ⟨rfl, rfl, ?_, ?_⟩
  · simp [c_button_was_pressed, mrbc_bool_value]
  · intro h
    simp [c_button_was_pressed, mrbc_bool_value, h]

/-- Witness of C1: after a press was latched, the two calls return true then false. -/
theorem C1_was_pressed_consumes_witness :
    (c_button_was_pressed (env_at 0 100)
        { last_state := 0, was_pressed_flag := 1, last_change_time := 100 } no_args 0).2 =
      mrbc_value.bool true ∧
    (c_button_was_pressed (env_at 0 100)
        (c_button_was_pressed (env_at 0 100)
          { last_state := 0, was_pressed_flag := 1, last_change_time := 100 } no_args 0).1
        no_args 0).2 = mrbc_value.bool false :=
  (C1_was_pressed_consumes (env_at 0 100) (env_at 0 100)
    { last_state := 0, was_pressed_flag := 1, last_change_time := 100 } no_args no_args 0 0).2.2.2
    (by decide)

/-- C3 (edge specificity). From a state with the latch cleared, the latch is set after a
`Button.update` tick if and only if the stored last level is high (1), the current level
is low (0) and `(now - last_change_time) mod 2^32 > 50`. A tick whose current level is
high leaves the latch as it was in every state, whatever the timing. -/
theorem C3_latch_set_iff_falling_edge (e : Env) (s : ButtonState) (v : Regs) (argc : Int) :
    (s.was_pressed_flag = 0 →
      ((c_button_update e s v argc).1.was_pressed_flag ≠ 0 ↔
        s.last_state = 1 ∧ e.gpio_level = 0 ∧
          ((e.now : Int) - (s.last_change_time : Int)) % 4294967296 > 50)) ∧
    (e.gpio_level = 1 →
      (c_button_update e s v argc).1.was_pressed_flag = s.was_pressed_flag) := by
  have hsub := u32_sub_eq_emod e.now s.last_change_time
  constructor
  · intro hf
    by_cases hw : u32_sub e.now s.last_change_time > DEBOUNCE_MS
    · have hgt : ((e.now : Int) - (s.last_change_time : Int)) % 4294967296 > 50 := by
        unfold DEBOUNCE_MS at hw
        omega
      by_cases hedge : s.last_state = 1 ∧ e.gpio_level = 0
      · rw [update_falling e s v argc hw hedge.1 hedge.2]
        simp [hedge.1, hedge.2, hgt]
      · rw [update_other e s v argc hw hedge]
        simp only [hf, ne_eq, not_true_eq_false, false_iff]
        intro h
        exact hedge ⟨h.1, h.2.1⟩
    · have hle : u32_sub e.now s.last_change_time ≤ DEBOUNCE_MS := by omega
      have hngt : ¬ ((e.now : Int) - (s.last_change_time : Int)) % 4294967296 > 50 := by
        unfold DEBOUNCE_MS at hle
        omega
      rw [update_in_window e s v argc hle]
      simp only [hf, ne_eq, not_true_eq_false, false_iff]
      intro h
      exact hngt h.2.2
  · intro hhigh
    by_cases hw : u32_sub e.now s.last_change_time > DEBOUNCE_MS
    · have hedge : ¬ (s.last_state = 1 ∧ e.gpio_level = 0) := by
        intro h
        rw [hhigh] at h
        exact absurd h.2 (by decide)
      rw [update_other e s v argc hw hedge]
    · have hle : u32_sub e.now s.last_change_time ≤ DEBOUNCE_MS := by omega
      rw [update_in_window e s v argc hle]

/-- Witness of C3: a falling edge 100 ms after the last change sets the cleared latch,
and a tick that reads high does not. -/
theorem C3_latch_set_iff_falling_edge_witness :
    ((c_button_update (env_at 0 100) static_init no_args 0).1.was_pressed_flag ≠ 0 ↔
      static_init.last_state = 1 ∧ (env_at 0 100).gpio_level = 0 ∧
        (((env_at 0 100).now : Int) - (static_init.last_change_time : Int)) % 4294967296
          > 50) ∧
    (c_button_update (env_at 1 100) static_init no_args 0).1.was_pressed_flag =
      static_init.was_pressed_flag :=
  ⟨(C3_latch_set_iff_falling_edge (env_at 0 100) static_init no_args 0).1 rfl,
   (C3_latch_set_iff_falling_edge (env_at 1 100) static_init no_args 0).2 rfl⟩

/-- C4 (wraparound-safe elapsed time). For a last-change timestamp `L` and a true delta
`d < 2^32`, when the clock reads `now = (L + d) mod 2^32` the elapsed value that
`Button.update` compares with `DEBOUNCE_MS` is exactly `d`; so the guard of the debounce
window fails exactly when `d ≤ 50`: then the tick changes nothing, and otherwise the tick
is accepted and stores the level it read. -/
theorem C4_elapsed_is_true_delta (e : Env) (s : ButtonState) (v : Regs) (argc : Int) (d : Nat)
    (hL : s.last_change_time < 4294967296) (hd : d < 4294967296)
    (hnow : e.now = (s.last_change_time + d) % 4294967296) :
    u32_sub e.now s.last_change_time = d ∧
    (¬ (u32_sub e.now s.last_change_time > DEBOUNCE_MS) ↔ d ≤ 50) ∧
    (d ≤ 50 → c_button_update e s v argc = (s, mrbc_nil_value)) ∧
    (50 < d → (c_button_update e s v argc).1.last_state = e.gpio_level) := by
  have _ := hL
  have hel : u32_sub e.now s.last_change_time = d := by
    rw [hnow]
    exact u32_sub_add_cancel s.last_change_time d hd
  refine ⟨hel, ?_, ?_, ?_⟩
  · rw [hel]
    unfold DEBOUNCE_MS
    omega
  · intro h
    apply update_in_window
    rw [hel]
    exact h
  · intro h
    have hw : u32_sub e.now s.last_change_time > DEBOUNCE_MS := by
      rw [hel]
      exact h
    by_cases hedge : s.last_state = 1 ∧ e.gpio_level = 0
    · rw [update_falling e s v argc hw hedge.1 hedge.2, hedge.2]
    · rw [update_other e s v argc hw hedge]

/-- Witness of C4: the timestamp is `2^32 - 20`, the counter overflows and reads 10; the
elapsed value is the true delta 30, inside the window. -/
theorem C4_elapsed_is_true_delta_witness :
    u32_sub (env_at 0 10).now 4294967276 = 30 ∧
    (¬ (u32_sub (env_at 0 10).now 4294967276 > DEBOUNCE_MS) ↔ 30 ≤ 50) ∧
    (30 ≤ 50 →
      c_button_update (env_at 0 10)
          { last_state := 1, was_pressed_flag := 0, last_change_time := 4294967276 }
          no_args 0 =
        ({ last_state := 1, was_pressed_flag := 0, last_change_time := 4294967276 },
          mrbc_nil_value)) ∧
    (50 < 30 →
      (c_button_update (env_at 0 10)
          { last_state := 1, was_pressed_flag := 0, last_change_time := 4294967276 }
          no_args 0).1.last_state = (env_at 0 10).gpio_level) :=
  C4_elapsed_is_true_delta (env_at 0 10)
    { last_state := 1, was_pressed_flag := 0, last_change_time := 4294967276 } no_args 0 30
    (by decide) (by decide) (by decide)

/-- C5, as stated, fails: with the last-change timestamp at `max - 5` and the clock at 3,
the `uint32_t` difference `now - last_change_time` is not 10. -/
theorem C5_elapsed_not_ten :
    ¬ (u32_sub (env_at 0 3).now (UINT32_MOD - 1 - 5) = 10) := by
  decide

/-- C5 (amended). With a 32-bit clock whose maximum is `max = 2^32 - 1`, a last-change
timestamp of `max - 5` and a next sample at clock value 3, the elapsed value computed by
`Button.update` is 9 (the counter advanced by 5 to reach `max`, by 1 to wrap to 0 and by
3 more), a small delta inside the debounce window, so the tick changes nothing. -/
theorem C5_elapsed_is_nine (e : Env) (s : ButtonState) (v : Regs) (argc : Int)
    (hT : s.last_change_time = UINT32_MOD - 1 - 5) (hnow : e.now = 3) :
    u32_sub e.now s.last_change_time = 9 ∧
    c_button_update e s v argc = (s, mrbc_nil_value) := by
  have hel : u32_sub e.now s.last_change_time = 9 := by
    rw [hT, hnow]
    decide
  refine ⟨hel, ?_⟩
  apply update_in_window
  rw [hel]
  decide

/-- Witness of the amended C5 at a state whose stored level is high while the pin reads
low: the falling edge is inside the window and is not latched. -/
theorem C5_elapsed_is_nine_witness :
    u32_sub (env_at 0 3).now 4294967290 = 9 ∧
    c_button_update (env_at 0 3)
        { last_state := 1, was_pressed_flag := 0, last_change_time := 4294967290 }
        no_args 0 =
      ({ last_state := 1, was_pressed_flag := 0, last_change_time := 4294967290 },
        mrbc_nil_value) :=
  C5_elapsed_is_nine (env_at 0 3)
    { last_state := 1, was_pressed_flag := 0, last_change_time := 4294967290 } no_args 0
    (by decide) (by decide)

/-- C10 (tick transition function). With `elapsed = (now - T) mod 2^32`: if
`elapsed ≤ 50` the whole state is unchanged, and so is it after any run of ticks that
all lie inside the window of the starting state; if `elapsed > 50`, the last level is
high and the current level is low, the latch becomes set and the timestamp becomes `now`;
if `elapsed > 50` in every other case the last level becomes the current level while the
latch and the timestamp are unchanged. `Button.update` never clears a set latch and
always returns nil. -/
theorem C10_tick_transition (e : Env) (s : ButtonState) (v : Regs) (argc : Int)
    (calls : List (Env × Regs × Int)) :
    (((e.now : Int) - (s.last_change_time : Int)) % 4294967296 ≤ 50 →
      (c_button_update e s v argc).1 = s) ∧
    ((∀ c ∈ calls, ((c.1.now : Int) - (s.last_change_time : Int)) % 4294967296 ≤ 50) →
      (run_calls c_button_update calls s).1 = s) ∧
    (((e.now : Int) - (s.last_change_time : Int)) % 4294967296 > 50 →
      s.last_state = 1 → e.gpio_level = 0 →
      (c_button_update e s v argc).1.was_pressed_flag = 1 ∧
      (c_button_update e s v argc).1.last_change_time = e.now) ∧
    (((e.now : Int) - (s.last_change_time : Int)) % 4294967296 > 50 →
      ¬ (s.last_state = 1 ∧ e.gpio_level = 0) →
      (c_button_update e s v argc).1 =
        { last_state := e.gpio_level, was_pressed_flag := s.was_pressed_flag,
          last_change_time := s.last_change_time }) ∧
    (s.was_pressed_flag ≠ 0 → (c_button_update e s v argc).1.was_pressed_flag ≠ 0) ∧
    (c_button_update e s v argc).2 = mrbc_nil_value := by
  have hsub := u32_sub_eq_emod e.now s.last_change_time
  refine ⟨?_, ?_, ?_, ?_, ?_, rfl⟩
  · intro h
    have hle : u32_sub e.now s.last_change_time ≤ DEBOUNCE_MS := by
      unfold DEBOUNCE_MS
      omega
    rw [update_in_window e s v argc hle]
  · intro h
    apply run_update_in_window
    intro c hc
    have h1 := h c hc
    have h2 := u32_sub_eq_emod c.1.now s.last_change_time
    unfold DEBOUNCE_MS
    omega
  · intro h hl hc
    have hw : u32_sub e.now s.last_change_time > DEBOUNCE_MS := by
      unfold DEBOUNCE_MS
      omega
    rw [update_falling e s v argc hw hl hc]
    exact ⟨rfl, rfl⟩
  · intro h hedge
    have hw : u32_sub e.now s.last_change_time > DEBOUNCE_MS := by
      unfold DEBOUNCE_MS
      omega
    rw [update_other e s v argc hw hedge]
  · intro hf
    by_cases hw : u32_sub e.now s.last_change_time > DEBOUNCE_MS
    · by_cases hedge : s.last_state = 1 ∧ e.gpio_level = 0
      · rw [update_falling e s v argc hw hedge.1 hedge.2]
        exact one_ne_zero
      · rw [update_other e s v argc hw hedge]
        exact hf
    · have hle : u32_sub e.now s.last_change_time ≤ DEBOUNCE_MS := by omega
      rw [update_in_window e s v argc hle]
      exact hf

/-- Witness of C10, one instance per branch: a tick inside the window (and a run of two
such ticks), a falling edge after the window, a rising edge after the window, and a set
latch that survives a tick. -/
theorem C10_tick_transition_witness :
    (c_button_update (env_at 0 130) ⟨1, 0, 100⟩ no_args 0).1 = ⟨1, 0, 100⟩ ∧
    (run_calls c_button_update [(env_at 0 110, no_args, 0), (env_at 1 120, no_args, 0)]
      ⟨1, 0, 100⟩).1 = ⟨1, 0, 100⟩ ∧
    ((c_button_update (env_at 0 200) ⟨1, 0, 100⟩ no_args 0).1.was_pressed_flag = 1 ∧
      (c_button_update (env_at 0 200) ⟨1, 0, 100⟩ no_args 0).1.last_change_time =
        (env_at 0 200).now) ∧
    (c_button_update (env_at 1 200) ⟨0, 0, 100⟩ no_args 0).1 = ⟨1, 0, 100⟩ ∧
    (c_button_update (env_at 1 200) ⟨0, 1, 100⟩ no_args 0).1.was_pressed_flag ≠ 0 :=
  ⟨(C10_tick_transition (env_at 0 130) ⟨1, 0, 100⟩ no_args 0 []).1 (by decide),
   (C10_tick_transition (env_at 0 130) ⟨1, 0, 100⟩ no_args 0
      [(env_at 0 110, no_args, 0), (env_at 1 120, no_args, 0)]).2.1 (by decide),
   (C10_tick_transition (env_at 0 200) ⟨1, 0, 100⟩ no_args 0 []).2.2.1
      (by decide) rfl rfl,
   (C10_tick_transition (env_at 1 200) ⟨0, 0, 100⟩ no_args 0 []).2.2.2.1
      (by decide) (by decide),
   (C10_tick_transition (env_at 1 200) ⟨0, 1, 100⟩ no_args 0 []).2.2.2.2.1 (by decide)⟩

/-- Successive `Button.is_pressed?` calls never change the state, and each of them
returns whether the level read by that call is low. -/
theorem run_is_pressed (s : ButtonState) (raw : Int) (calls : List (Env × Regs × Int))
    (h : ∀ c ∈ calls, c.1.gpio_level = raw) :
    (run_calls c_button_is_pressed calls s).1 = s ∧
    ∀ r ∈ (run_calls c_button_is_pressed calls s).2,
      r = mrbc_value.bool (decide (raw = 0)) := by
  induction calls with
  | nil => exact ⟨rfl, fun r hr => absurd hr (List.not_mem_nil r)⟩
  | cons c cs ih =>
    have hc := h c (List.mem_cons_self c cs)
    have ih1 := ih (fun c' hc' => h c' (List.mem_cons_of_mem c hc'))
    have hstep : c_button_is_pressed c.1 s c.2.1 c.2.2 =
        (s, mrbc_value.bool (decide (raw = 0))) := by
      simp [c_button_is_pressed, mrbc_bool_value, c_eq, hc]
    simp only [run_calls, hstep]
    refine ⟨ih1.1, ?_⟩
    intro r hr
    rcases List.mem_cons.mp hr with h1 | h1
    · exact h1
    · exact ih1.2 r h1

/-- C6 (non-consuming query purity). `Button.is_pressed?` returns true exactly when the
level it reads is low (0), whatever the cached last level, the latch and the timestamp
are, and leaves the state unchanged. Hence any number of calls at the same raw level
return the same value and leave the state unchanged, and a following `was_pressed?`
returns what it would have returned without them. -/
theorem C6_is_pressed_pure (e e2 : Env) (s s2 : ButtonState) (v v2 : Regs) (argc argc2 : Int)
    (calls : List (Env × Regs × Int)) :
    (c_button_is_pressed e s v argc).2 = mrbc_value.bool (decide (e.gpio_level = 0)) ∧
    (c_button_is_pressed e s2 v argc).2 = (c_button_is_pressed e s v argc).2 ∧
    (c_button_is_pressed e s v argc).1 = s ∧
    ((∀ c ∈ calls, c.1.gpio_level = e.gpio_level) →
      (∀ r ∈ (run_calls c_button_is_pressed calls s).2,
        r = mrbc_value.bool (decide (e.gpio_level = 0))) ∧
      (run_calls c_button_is_pressed calls s).1 = s ∧
      c_button_was_pressed e2 (run_calls c_button_is_pressed calls s).1 v2 argc2 =
        c_button_was_pressed e2 s v2 argc2) := by
  refine ⟨?_, rfl, rfl, ?_⟩
  · simp [c_button_is_pressed, mrbc_bool_value, c_eq]
  · intro h
    have hr := run_is_pressed s e.gpio_level calls h
    refine ⟨hr.2, hr.1, ?_⟩
    rw [hr.1]

/-- Witness of C6: three `is_pressed?` calls while the pin reads low all return true and
a pending press is still reported afterwards. -/
theorem C6_is_pressed_pure_witness :
    (∀ r ∈ (run_calls c_button_is_pressed
        [(env_at 0 10, no_args, 0), (env_at 0 20, no_args, 0), (env_at 0 30, no_args, 0)]
        ⟨0, 1, 5⟩).2, r = mrbc_value.bool (decide ((env_at 0 10).gpio_level = 0))) ∧
    (run_calls c_button_is_pressed
        [(env_at 0 10, no_args, 0), (env_at 0 20, no_args, 0), (env_at 0 30, no_args, 0)]
        ⟨0, 1, 5⟩).1 = ⟨0, 1, 5⟩ ∧
    c_button_was_pressed (env_at 0 40)
        (run_calls c_button_is_pressed
          [(env_at 0 10, no_args, 0), (env_at 0 20, no_args, 0), (env_at 0 30, no_args, 0)]
          ⟨0, 1, 5⟩).1 no_args 0 =
      c_button_was_pressed (env_at 0 40) ⟨0, 1, 5⟩ no_args 0 :=
  (C6_is_pressed_pure (env_at 0 10) (env_at 0 40) ⟨0, 1, 5⟩ ⟨0, 1, 5⟩ no_args no_args 0 0
    [(env_at 0 10, no_args, 0), (env_at 0 20, no_args, 0), (env_at 0 30, no_args, 0)]).2.2.2
    (by decide)

/-- C9, as stated, fails: initialisation at clock value 1000 leaves the last-change
timestamp at 0, not at the clock value. -/
theorem C9_init_timestamp_not_clock :
    (env_at 1 1000).now = 1000 ∧
    (c_button_init (env_at 1 1000) static_init no_args 0).1.last_change_time ≠
      (env_at 1 1000).now := by
  decide

/-- C9 (amended). On first initialisation (`Button.init` run from the static initial
state), for every raw level read from the pin and every clock value, the resulting state
has the last level equal to the raw level read, the latch cleared, and the last-change
timestamp equal to 0, its static initial value (the clock is not read); `Button.init`
returns nil. -/
theorem C9_init_from_static (e : Env) (v : Regs) (argc : Int) :
    c_button_init e static_init v argc =
      ({ last_state := e.gpio_level, was_pressed_flag := 0, last_change_time := 0 },
        mrbc_nil_value) := by
  rfl

/-- After an accepted press (a falling edge outside the window) every tick that comes at
most 50 ms later changes nothing: the debounce window that the press opened holds. -/
theorem debounce_after_accepted_press (e1 e2 : Env) (s : ButtonState) (v1 v2 : Regs)
    (argc1 argc2 : Int)
    (h1 : u32_sub e1.now s.last_change_time > DEBOUNCE_MS)
    (hl : s.last_state = 1) (hc : e1.gpio_level = 0)
    (h2 : u32_sub e2.now e1.now ≤ DEBOUNCE_MS) :
    c_button_update e2 (c_button_update e1 s v1 argc1).1 v2 argc2 =
      ((c_button_update e1 s v1 argc1).1, mrbc_nil_value) := by
  rw [update_falling e1 s v1 argc1 h1 hl hc]
  exact update_in_window e2 _ v2 argc2 h2

/-- C2 fails on the code after a release. From the static initial state: init with the
pin high, a press at 100 ms (latched and consumed by `was_pressed?`), the release read at
300 ms, and a contact bounce read low at 305 ms. The two last ticks are two level changes
5 ms apart, yet the second one sets the latch: the window is measured from the last
accepted press (100 ms), because a rising edge does not restart `last_change_time`. -/
theorem C2_release_bounce_sets_latch :
    (c_button_was_pressed (env_at 0 100)
      (c_button_update (env_at 0 100)
        (c_button_init (env_at 1 0) static_init no_args 0).1 no_args 0).1 no_args 0)
      = (⟨0, 0, 100⟩, mrbc_value.bool true) ∧
    u32_sub (env_at 0 305).now (env_at 1 300).now = 5 ∧
    (c_button_update (env_at 1 300) ⟨0, 0, 100⟩ no_args 0).1 = ⟨1, 0, 100⟩ ∧
    (c_button_update (env_at 0 305)
      (c_button_update (env_at 1 300) ⟨0, 0, 100⟩ no_args 0).1 no_args 0).1 = ⟨0, 1, 305⟩ ∧
    (c_button_update (env_at 0 305)
      (c_button_update (env_at 1 300) ⟨0, 0, 100⟩ no_args 0).1 no_args 0).1.was_pressed_flag
      ≠ (c_button_update (env_at 1 300) ⟨0, 0, 100⟩ no_args 0).1.was_pressed_flag := by
  decide

/-! ## The claims about the binding layer -/

/-- C7, as stated, fails: `Button.was_pressed?` called with one extra argument (the
integer 7) while a press is latched returns true, not nil, and clears the latch; and
`M5.begin` called with one extra argument calls its wrapper (the log of native calls
grows from 0 to 1 entry). -/
theorem C7_extra_argument_not_rejected :
    Method.zero_arg Method.Button_was_pressed = true ∧
    (Method.call Method.Button_was_pressed (env_at 0 100) ⟨⟨0, 1, 100⟩, []⟩
      (one_arg (mrbc_value.integer 7)) 1).2 = mrbc_value.bool true ∧
    (Method.call Method.Button_was_pressed (env_at 0 100) ⟨⟨0, 1, 100⟩, []⟩
      (one_arg (mrbc_value.integer 7)) 1).2 ≠ mrbc_nil_value ∧
    (Method.call Method.Button_was_pressed (env_at 0 100) ⟨⟨0, 1, 100⟩, []⟩
      (one_arg (mrbc_value.integer 7)) 1).1 ≠ ⟨⟨0, 1, 100⟩, []⟩ ∧
    Method.zero_arg Method.M5_begin = true ∧
    (Method.call Method.M5_begin (env_at 0 100) ⟨⟨0, 1, 100⟩, []⟩
      (one_arg (mrbc_value.integer 7)) 1).1.m5 = [M5Call.begin] := by
  decide

/-- The wrappers answer 0 or 1, so the boolean handed back to the VM is the answer of
the M5Unified query itself. -/
theorem mrbc_bool_value_ite (b : Bool) : mrbc_bool_value (if b then 1 else 0) = .bool b := by
  cases b <;> simp [mrbc_bool_value]

/-- C7 (amended). For every bound method declared to take zero arguments, an invocation
with `argc = 1` (any register contents) is not rejected: it returns the same value and
leaves the same world as the invocation with `argc = 0`. The native function runs: a
method of `m5unified.c` calls its wrapper exactly once (the native call counter grows by
one) and leaves the button state alone, a method of `button.c` leaves the native call log
alone. The result is nil for `init`, `update`, `begin` and `clear`, and a Boolean for the
predicates: the latch for `Button.was_pressed?` (which clears it), whether the pin reads
low for `Button.is_pressed?`, and the answer of the M5Unified query for
`BtnA/B/C.wasPressed?/isPressed?`. -/
theorem C7_extra_argument_ignored (m : Method) (e : Env) (w : World) (v v0 : Regs)
    (hz : m.zero_arg = true) :
    m.call e w v 1 = m.call e w v0 0 ∧
    (m.is_m5 = true →
      (m.call e w v 1).1.m5.length = w.m5.length + 1 ∧ (m.call e w v 1).1.button = w.button) ∧
    (m.is_m5 = false → (m.call e w v 1).1.m5 = w.m5) ∧
    (m = Method.Button_init ∨ m = Method.Button_update ∨ m = Method.M5_begin ∨
        m = Method.M5_update ∨ m = Method.Display_clear →
      (m.call e w v 1).2 = mrbc_nil_value) ∧
    (m = Method.Button_init →
      (m.call e w v 1).1.button =
        { last_state := e.gpio_level, was_pressed_flag := w.button.was_pressed_flag,
          last_change_time := w.button.last_change_time }) ∧
    (m = Method.Button_update →
      (m.call e w v 1).1.button = (c_button_update e w.button v0 0).1) ∧
    (m = Method.Button_was_pressed →
      (m.call e w v 1).2 = mrbc_value.bool (decide (w.button.was_pressed_flag ≠ 0)) ∧
      (m.call e w v 1).1.button =
        { last_state := w.button.last_state, was_pressed_flag := 0,
          last_change_time := w.button.last_change_time }) ∧
    (m = Method.Button_is_pressed →
      (m.call e w v 1).2 = mrbc_value.bool (decide (e.gpio_level = 0)) ∧
      (m.call e w v 1).1.button = w.button) ∧
    (m = Method.M5_begin → (m.call e w v 1).1.m5 = w.m5 ++ [M5Call.begin]) ∧
    (m = Method.M5_update → (m.call e w v 1).1.m5 = w.m5 ++ [M5Call.update]) ∧
    (m = Method.Display_clear → (m.call e w v 1).1.m5 = w.m5 ++ [M5Call.display_clear]) ∧
    (m = Method.BtnA_wasPressed →
      (m.call e w v 1).2 = mrbc_value.bool e.btnA_wasPressed ∧
      (m.call e w v 1).1.m5 = w.m5 ++ [M5Call.btnA_wasPressed]) ∧
    (m = Method.BtnA_isPressed →
      (m.call e w v 1).2 = mrbc_value.bool e.btnA_isPressed ∧
      (m.call e w v 1).1.m5 = w.m5 ++ [M5Call.btnA_isPressed]) ∧
    (m = Method.BtnB_wasPressed →
      (m.call e w v 1).2 = mrbc_value.bool e.btnB_wasPressed ∧
      (m.call e w v 1).1.m5 = w.m5 ++ [M5Call.btnB_wasPressed]) ∧
    (m = Method.BtnB_isPressed →
      (m.call e w v 1).2 = mrbc_value.bool e.btnB_isPressed ∧
      (m.call e w v 1).1.m5 = w.m5 ++ [M5Call.btnB_isPressed]) ∧
    (m = Method.BtnC_wasPressed →
      (m.call e w v 1).2 = mrbc_value.bool e.btnC_wasPressed ∧
      (m.call e w v 1).1.m5 = w.m5 ++ [M5Call.btnC_wasPressed]) ∧
    (m = Method.BtnC_isPressed →
      (m.call e w v 1).2 = mrbc_value.bool e.btnC_isPressed ∧
      (m.call e w v 1).1.m5 = w.m5 ++ [M5Call.btnC_isPressed]) := by
  have hlow : mrbc_bool_value (c_eq e.gpio_level 0) =
      mrbc_value.bool (decide (e.gpio_level = 0)) := by
    by_cases h : e.gpio_level = 0 <;> simp [mrbc_bool_value, c_eq, h]
  have hlow2 : decide (c_eq e.gpio_level 0 = 0) = !decide (e.gpio_level = 0) := by
    by_cases h : e.gpio_level = 0 <;> simp [c_eq, h]
  cases m <;>
    first
    | exact absurd hz (by decide)
    | (refine ⟨rfl, ?_, ?_, ?_, ?_, ?_, ?_, ?_, ?_, ?_, ?_, ?_, ?_, ?_, ?_, ?_, ?_⟩ <;>
        simp [Method.call, Method.is_m5, on_button, on_m5, c_button_init, c_button_update,
          c_button_was_pressed, c_button_is_pressed, mrbc_m5_begin, mrbc_m5_update,
          mrbc_m5_btnA_wasPressed, mrbc_m5_btnA_isPressed, mrbc_m5_btnB_wasPressed,
          mrbc_m5_btnB_isPressed, mrbc_m5_btnC_wasPressed, mrbc_m5_btnC_isPressed,
          mrbc_m5_display_clear, m5unified_begin, m5unified_update,
          m5unified_btnA_wasPressed, m5unified_btnA_isPressed, m5unified_btnB_wasPressed,
          m5unified_btnB_isPressed, m5unified_btnC_wasPressed, m5unified_btnC_isPressed,
          m5unified_display_clear, mrbc_bool_value_ite, hlow, hlow2, mrbc_bool_value,
          mrbc_nil_value])

/-- Witness of the amended C7 at `M5.BtnA.wasPressed?` called with one extra argument
while button A reports a press: the wrapper is called once and the result is true. -/
theorem C7_extra_argument_ignored_witness :
    Method.call Method.BtnA_wasPressed (env_pressed_A 100) ⟨⟨0, 1, 100⟩, []⟩
        (one_arg (mrbc_value.integer 7)) 1 =
      Method.call Method.BtnA_wasPressed (env_pressed_A 100) ⟨⟨0, 1, 100⟩, []⟩ no_args 0 ∧
    ((Method.call Method.BtnA_wasPressed (env_pressed_A 100) ⟨⟨0, 1, 100⟩, []⟩
        (one_arg (mrbc_value.integer 7)) 1).2 =
          mrbc_value.bool (env_pressed_A 100).btnA_wasPressed ∧
      (Method.call Method.BtnA_wasPressed (env_pressed_A 100) ⟨⟨0, 1, 100⟩, []⟩
        (one_arg (mrbc_value.integer 7)) 1).1.m5 = [] ++ [M5Call.btnA_wasPressed]) :=
  ⟨(C7_extra_argument_ignored Method.BtnA_wasPressed (env_pressed_A 100) ⟨⟨0, 1, 100⟩, []⟩
      (one_arg (mrbc_value.integer 7)) no_args (by decide)).1,
   (C7_extra_argument_ignored Method.BtnA_wasPressed (env_pressed_A 100) ⟨⟨0, 1, 100⟩, []⟩
      (one_arg (mrbc_value.integer 7)) no_args (by decide)).2.2.2.2.2.2.2.2.2.2.2.1 rfl⟩

/-- The C string of a buffer without NUL byte is the whole buffer. -/
theorem c_string_of_no_nul (bytes : List Nat) (h : 0 ∉ bytes) : c_string bytes = bytes := by
  unfold c_string
  rw [List.takeWhile_eq_self_iff]
  intro x hx
  have hne : x ≠ 0 := fun h0 => h (h0 ▸ hx)
  simp [hne]

/-- C8, as stated, fails: `Display.print` called with two arguments, the first one the
string "hi", calls the native print function although the argument count is not 1. And
called with the single String of the three bytes `h`, NUL, `i`, it hands the native
function a C string that ends at the NUL, the byte `h` alone, not the bytes of the
argument. -/
theorem C8_print_accepts_two_arguments :
    (mrbc_m5_display_print (env_at 1 0) [] (one_arg (mrbc_value.string [104, 105])) 2).1 =
      [M5Call.display_print [104, 105]] ∧
    ¬ ((mrbc_m5_display_print (env_at 1 0) [] (one_arg (mrbc_value.string [104, 105])) 2).1
          ≠ [] ↔
        ((2 : Int) = 1 ∧
          (one_arg (mrbc_value.string [104, 105]) 1).tt = mrbc_vtype.MRBC_TT_STRING)) ∧
    (mrbc_m5_display_print (env_at 1 0) [] (one_arg (mrbc_value.string [104, 0, 105])) 1).1 =
      [M5Call.display_print [104]] ∧
    (mrbc_m5_display_print (env_at 1 0) [] (one_arg (mrbc_value.string [104, 0, 105])) 1).1 ≠
      [M5Call.display_print [104, 0, 105]] := by
  decide

/-- C8 (amended). For `Display.print` and `Display.println` and every invocation the
result is nil, and the native print function is invoked (exactly once, with the C string
of the first argument: its bytes before the first NUL byte, which are all its bytes when
it holds no NUL) if and only if the argument count is at least 1 and the tag of the first
argument is String; otherwise no native function is invoked. In particular an invocation
without argument, or with a first argument that is nil, a boolean or an integer, never
invokes the native function. -/
theorem C8_print_guard (e : Env) (log : M5Log) (v : Regs) (argc : Int) :
    (mrbc_m5_display_print e log v argc).2 = mrbc_nil_value ∧
    (mrbc_m5_display_println e log v argc).2 = mrbc_nil_value ∧
    (¬ (argc ≥ 1 ∧ (v 1).tt = mrbc_vtype.MRBC_TT_STRING) →
      (mrbc_m5_display_print e log v argc).1 = log ∧
      (mrbc_m5_display_println e log v argc).1 = log) ∧
    (argc ≤ 0 ∨ v 1 = mrbc_value.nil ∨ (∃ b, v 1 = mrbc_value.bool b) ∨
        (∃ i, v 1 = mrbc_value.integer i) →
      (mrbc_m5_display_print e log v argc).1 = log ∧
      (mrbc_m5_display_println e log v argc).1 = log) ∧
    (∀ bytes, argc ≥ 1 → v 1 = mrbc_value.string bytes →
      (mrbc_m5_display_print e log v argc).1 =
        log ++ [M5Call.display_print (bytes.takeWhile (fun b => decide (b ≠ 0)))] ∧
      (mrbc_m5_display_println e log v argc).1 =
        log ++ [M5Call.display_println (bytes.takeWhile (fun b => decide (b ≠ 0)))]) ∧
    (∀ bytes, argc ≥ 1 → v 1 = mrbc_value.string bytes → 0 ∉ bytes →
      (mrbc_m5_display_print e log v argc).1 = log ++ [M5Call.display_print bytes] ∧
      (mrbc_m5_display_println e log v argc).1 = log ++ [M5Call.display_println bytes]) ∧
    (((mrbc_m5_display_print e log v argc).1.length = log.length + 1 ↔
        (argc ≥ 1 ∧ (v 1).tt = mrbc_vtype.MRBC_TT_STRING)) ∧
      ((mrbc_m5_display_println e log v argc).1.length = log.length + 1 ↔
        (argc ≥ 1 ∧ (v 1).tt = mrbc_vtype.MRBC_TT_STRING))) := by
  have hyes : ∀ bytes, argc ≥ 1 → v 1 = mrbc_value.string bytes →
      (mrbc_m5_display_print e log v argc).1 =
        log ++ [M5Call.display_print (bytes.takeWhile (fun b => decide (b ≠ 0)))] ∧
      (mrbc_m5_display_println e log v argc).1 =
        log ++ [M5Call.display_println (bytes.takeWhile (fun b => decide (b ≠ 0)))] := by
    intro bytes hargc hb
    simp [mrbc_m5_display_print, mrbc_m5_display_println, m5unified_display_print,
      m5unified_display_println, mrbc_string_cstr, c_string, mrbc_value.tt, hargc, hb]
  have hno : ¬ (argc ≥ 1 ∧ (v 1).tt = mrbc_vtype.MRBC_TT_STRING) →
      (mrbc_m5_display_print e log v argc).1 = log ∧
      (mrbc_m5_display_println e log v argc).1 = log := by
    intro h
    simp only [mrbc_m5_display_print, mrbc_m5_display_println, if_neg h, and_self]
  refine ⟨rfl, rfl, hno, ?_, hyes, ?_, ?_⟩
  · intro h
    apply hno
    rintro ⟨h1, h2⟩
    rcases h with h | h | ⟨b, h⟩ | ⟨i, h⟩
    · omega
    · rw [h] at h2
      exact absurd h2 (by decide)
    · rw [h] at h2
      cases b <;> exact absurd h2 (by decide)
    · rw [h] at h2
      exact absurd h2 (by simp [mrbc_value.tt])
  · intro bytes hargc hb h0
    have h := hyes bytes hargc hb
    have hc : bytes.takeWhile (fun b => decide (b ≠ 0)) = bytes := c_string_of_no_nul bytes h0
    rw [hc] at h
    exact h
  · by_cases hg : argc ≥ 1 ∧ (v 1).tt = mrbc_vtype.MRBC_TT_STRING
    · simp [mrbc_m5_display_print, mrbc_m5_display_println, m5unified_display_print,
        m5unified_display_println, hg.1, hg.2]
    · have h := hno hg
      rw [h.1, h.2]
      simp [hg]

/-- Witness of the amended C8: `print` with the single argument "hi" reaches the native
function with these bytes, and `print` with the single argument 7 does not reach it. -/
theorem C8_print_guard_witness :
    ((mrbc_m5_display_print (env_at 1 0) [] (one_arg (mrbc_value.string [104, 105])) 1).1 =
        [] ++ [M5Call.display_print [104, 105]] ∧
      (mrbc_m5_display_println (env_at 1 0) [] (one_arg (mrbc_value.string [104, 105])) 1).1 =
        [] ++ [M5Call.display_println [104, 105]]) ∧
    ((mrbc_m5_display_print (env_at 1 0) [] (one_arg (mrbc_value.integer 7)) 1).1 = [] ∧
      (mrbc_m5_display_println (env_at 1 0) [] (one_arg (mrbc_value.integer 7)) 1).1 = []) :=
  ⟨(C8_print_guard (env_at 1 0) [] (one_arg (mrbc_value.string [104, 105])) 1).2.2.2.2.2.1
      [104, 105] (by decide) rfl (by decide),
   (C8_print_guard (env_at 1 0) [] (one_arg (mrbc_value.integer 7)) 1).2.2.2.1
      (Or.inr (Or.inr (Or.inr ⟨7, rfl⟩)))⟩

end Picotorokko
